import Mathlib

/-!
Verification of `adjust_video.py` (batch video conversion orchestrator).

A shallow embedding of the script `adjust_video.py`, which batch-converts
`video_{scene_id}.mp4` files to H.264 by shelling out to `ffprobe` (codec
detection) and `ffmpeg` (transcoding), replacing each original file in place
via a temporary sibling file and `os.replace`.

Modelling choices:

* The filesystem is a partial map from paths to abstract contents
  (`FS := String → Option Nat`); `none` means the path does not exist.
* The external world (which binaries are on `PATH`, what `ffprobe` prints for
  a file, whether an `ffmpeg` transcode succeeds, whether a failed transcode
  leaves a partial output file) is an oracle record `Env`, fixed for a run.
* Every observable action (subprocess invocation, `os.replace`, `os.remove`,
  diagnostic print) is recorded in an event trace, so that claims about
  "logs the error", "never invokes the transcoder", "atomically replaces"
  can be stated over the trace.
* Python exceptions are explicit: `subprocess.run(..., check=True)` either
  returns, raises `CalledProcessError` (non-zero exit), or raises
  `FileNotFoundError` (binary absent from `PATH`).  `get_video_info` catches
  only `CalledProcessError`; `convert_video` catches only
  `CalledProcessError`; the preflight check in `main` catches both.
* Python's `str.replace` and `sorted` are embedded as structurally recursive
  Lean functions so that concrete runs evaluate inside the kernel.
-/

namespace AdjustVideo

/-- Equality of `Except` results is decidable componentwise (used to
evaluate concrete runs with `decide`). -/
instance {ε α : Type} [DecidableEq ε] [DecidableEq α] : DecidableEq (Except ε α) := fun a b =>
  match a, b with
  | .ok x, .ok y => decidable_of_iff (x = y) (by simp)
  | .error x, .error y => decidable_of_iff (x = y) (by simp)
  | .ok _, .error _ => isFalse (by simp)
  | .error _, .ok _ => isFalse (by simp)

/-- Abstract file contents; the orchestrator never inspects file bytes, only
whether a path exists and which write produced its current content. -/
abbrev Content := Nat

/-- The filesystem: a partial map from paths to contents. -/
abbrev FS := String → Option Content

/-- The Python exceptions that can escape a `subprocess.run` call in this
script.  `CalledProcessError` (non-zero exit status, from `check=True`) is
caught at various points; `FileNotFoundError` (the binary is not on `PATH`)
is caught only by the preflight check in `main`. -/
inductive PyExn where
  | calledProcessError
  | fileNotFoundError
deriving DecidableEq, Repr

/-- The oracle describing the external world for one run: availability of the
two binaries, the (stripped) stdout of `ffprobe` per path, and the behaviour
of `ffmpeg` per input path. -/
structure Env where
  /-- Whether `ffmpeg` is on `PATH` and `ffmpeg -version` exits 0 (line 78). -/
  ffmpegOnPath : Bool
  /-- Whether `ffprobe` is on `PATH` (line 15); if not, running it raises
  `FileNotFoundError`. -/
  ffprobeOnPath : Bool
  /-- Per path: `some s` is the stripped stdout of a successful `ffprobe`
  run (the codec name, possibly malformed); `none` means `ffprobe` exited
  non-zero (`CalledProcessError`). -/
  probeResult : String → Option String
  /-- Per input path: whether the `ffmpeg` transcode invocation (line 54)
  exits 0. -/
  transcodeOk : String → Bool
  /-- Per input path: the content `ffmpeg` writes to the output path on a
  successful transcode. -/
  transcodedContent : String → Content
  /-- Per input path: the partial content (if any) a *failed* `ffmpeg`
  invocation leaves at the output path (`none`: no output file is left). -/
  failTemp : String → Option Content

/-- One observable action of the script, in program order.  Print events
carry the information interpolated into the corresponding f-string. -/
inductive Event where
  /-- The `ffprobe` invocation of `get_video_info` (lines 15-22). -/
  | runFfprobe (path : String)
  /-- The print of line 25: "Error getting info for " followed by the path
  and the exception text. -/
  | logProbeError (path : String)
  /-- The preflight `subprocess.run` attempt on `ffmpeg -version` (line 78). -/
  | runFfmpegVersion
  /-- The two prints reporting that `ffmpeg` is unavailable (lines 80-81). -/
  | logToolMissing
  /-- The print of line 71: no matching video files were found. -/
  | printNoFiles
  /-- The print of line 74: how many video files were found to process. -/
  | printFoundCount (n : Nat)
  /-- The print of line 93: skipping a file that is already H.264. -/
  | printSkipping (path : String)
  /-- The print of line 97: the current codec; `none` renders as `None`. -/
  | printCurrentCodec (codec : Option String)
  /-- The print of line 53: a conversion of the file is starting. -/
  | printConverting (path : String)
  /-- The `ffmpeg` transcode invocation writing `output` (lines 38-54). -/
  | runFfmpeg (input output : String)
  /-- The print of line 55: the file was successfully converted. -/
  | printConvertSuccess (path : String)
  /-- The two prints of a failed conversion: the exception and its stderr
  (lines 58-59). -/
  | logConvertError (path : String)
  /-- The call `os.replace(src, dst)` (line 105): atomic rename over `dst`. -/
  | osReplace (src dst : String)
  /-- The call `os.remove(path)` (line 110). -/
  | osRemove (path : String)
  /-- The final summary block (lines 114-119): converted count, skipped
  count, and the printed failed count `len(video_files) - success_count -
  skip_count` (Python integer subtraction). -/
  | printSummary (converted skipped : Nat) (failed : Int)
deriving DecidableEq, Repr

/-- The conversion outcome of one candidate file (spec data model:
skipped / converted / failed).  `main` does not store this record
explicitly; it is the ghost classification of which branch of the loop
body the file took (skip at line 95, replace at lines 105-106, or the
failure branch at lines 107-110). -/
inductive FileOutcome where
  | skipped
  | converted
  | failed
deriving DecidableEq, Repr

/-- Function `get_video_info` (lines 12-26): run `ffprobe` on the path and
return the stripped stdout.  A `CalledProcessError` is caught, logged, and
turned into `None`; a `FileNotFoundError` (ffprobe absent) is *not* caught
and propagates.  Returns (events, filesystem-unchanged result). -/
def get_video_info (env : Env) (video_path : String) :
    List Event × Except PyExn (Option String) :=
  if env.ffprobeOnPath then
    match env.probeResult video_path with
    | some codec => ([.runFfprobe video_path], .ok (some codec))
    | none => ([.runFfprobe video_path, .logProbeError video_path], .ok none)
  else
    ([], .error .fileNotFoundError)

/-- Function `convert_video` (lines 28-60): run `ffmpeg`
writing the output path; returns `true` on success and `false` on a caught
`CalledProcessError` (after logging the diagnostic).  A failed invocation may
leave a partial file at the output path.  If `ffmpeg` is absent from `PATH`
the `FileNotFoundError` is not caught here and propagates (in `main` this is
excluded by the preflight check). -/
def convert_video (env : Env) (fs : FS) (input_path output_path : String) :
    List Event × FS × Except PyExn Bool :=
  if env.ffmpegOnPath then
    if env.transcodeOk input_path then
      ([.printConverting input_path, .runFfmpeg input_path output_path,
        .printConvertSuccess input_path],
       fun p => if p = output_path then some (env.transcodedContent input_path) else fs p,
       .ok true)
    else
      ([.printConverting input_path, .runFfmpeg input_path output_path,
        .logConvertError input_path],
       fun p => if p = output_path then
                  match env.failTemp input_path with
                  | some c => some c
                  | none => fs p
                else fs p,
       .ok false)
  else
    ([.printConverting input_path], fs, .error .fileNotFoundError)

/-- Python's `str.replace(old, new)` for the fixed arguments of line 100
(`video_path.replace('.mp4', '_temp.mp4')`): every non-overlapping
occurrence of `.mp4`, scanning left to right, is replaced by `_temp.mp4`.
Embedded as structural recursion over the character list so that concrete
paths evaluate inside the kernel. -/
def replace_mp4_chars : List Char → List Char
  | '.' :: 'm' :: 'p' :: '4' :: rest => '_' :: 't' :: 'e' :: 'm' :: 'p' :: '.' :: 'm' :: 'p' :: '4' :: replace_mp4_chars rest
  | c :: rest => c :: replace_mp4_chars rest
  | [] => []

/-- The temporary sibling output path of line 100:
`temp_output = video_path.replace('.mp4', '_temp.mp4')`. -/
def temp_output (video_path : String) : String :=
  ⟨replace_mp4_chars video_path.data⟩

/-- The body of the per-file loop of `main` (lines 88-112): probe the codec,
skip if already `h264`, otherwise transcode to the temporary sibling path and
either commit it with `os.replace` or clean it up with `os.remove`.
Returns the events, the updated filesystem, and the file's outcome (or the
uncaught exception). -/
def process_file (env : Env) (fs : FS) (video_path : String) :
    List Event × FS × Except PyExn FileOutcome :=
  match get_video_info env video_path with
  | (evs, .error e) => (evs, fs, .error e)
  | (evs, .ok codec) =>
    if codec = some "h264" then
      (evs ++ [.printSkipping video_path], fs, .ok .skipped)
    else
      let evs := evs ++ [.printCurrentCodec codec]
      let temp := temp_output video_path
      match convert_video env fs video_path temp with
      | (cevs, fs1, .error e) => (evs ++ cevs, fs1, .error e)
      | (cevs, fs1, .ok true) =>
          -- os.replace(temp_output, video_path): atomically move the temp
          -- file onto the original name (line 105).
          let fs2 : FS := fun p =>
            if p = video_path then fs1 temp
            else if p = temp then none
            else fs1 p
          (evs ++ cevs ++ [.osReplace temp video_path], fs2, .ok .converted)
      | (cevs, fs1, .ok false) =>
          -- Clean up the temp file if the conversion failed (lines 109-110).
          if (fs1 temp).isSome then
            (evs ++ cevs ++ [.osRemove temp],
             (fun p => if p = temp then none else fs1 p : FS), .ok .failed)
          else
            (evs ++ cevs, fs1, .ok .failed)

/-- The `for video_path in video_files` loop of `main` (lines 84-112),
threading the filesystem through the files in order and accumulating
`success_count`, `skip_count` and the per-file outcomes (in file order).
An uncaught exception from the body aborts the remainder of the loop. -/
def process_loop (env : Env) (fs : FS) :
    List String → List Event × FS × Except PyExn (Nat × Nat × List FileOutcome)
  | [] => ([], fs, .ok (0, 0, []))
  | video_path :: rest =>
    match process_file env fs video_path with
    | (evs, fs1, .error e) => (evs, fs1, .error e)
    | (evs, fs1, .ok oc) =>
      match process_loop env fs1 rest with
      | (evs2, fs2, .error e) => (evs ++ evs2, fs2, .error e)
      | (evs2, fs2, .ok (succ, skip, ocs)) =>
        (evs ++ evs2, fs2,
         .ok ((if oc = .converted then 1 else 0) + succ,
              (if oc = .skipped then 1 else 0) + skip,
              oc :: ocs))

/-- The media directory (line 64): `Path('./static/videos')`, whose `str` is
`static/videos`. -/
def video_dir : String := "static/videos"

/-- The glob pattern (line 67): `str(video_dir / 'video_0446.mp4')`.  It is a
literal file name containing no glob wildcard characters. -/
def video_pattern : String := video_dir ++ "/video_0446.mp4"

/-- Model of `glob.glob` for a pattern containing no wildcard characters
(true of `video_pattern`): it returns the literal path exactly when that path
exists on the filesystem, and the empty list otherwise. -/
def glob (fs : FS) (pattern : String) : List String :=
  if (fs pattern).isSome then [pattern] else []

/-- Insertion of one string into a sorted list, ascending. -/
def sorted_insert (x : String) : List String → List String
  | [] => [x]
  | y :: rest => if x ≤ y then x :: y :: rest else y :: sorted_insert x rest

/-- Python's `sorted` on a list of strings (line 68), embedded as insertion
sort (ascending lexicographic order). -/
def py_sorted : List String → List String
  | [] => []
  | x :: rest => sorted_insert x (py_sorted rest)

/-- The discovery step of `main` (lines 67-68):
`video_files = sorted(glob.glob(video_pattern))`. -/
def discovered (fs : FS) : List String :=
  py_sorted (glob fs video_pattern)

/-- How a run of `main` ends. -/
inductive RunResult where
  /-- Early return at line 72: the glob matched nothing. -/
  | noFiles
  /-- Early return at line 82: the preflight `ffmpeg` check failed. -/
  | toolUnavailable
  /-- Normal completion (lines 114-119): final `success_count`,
  `skip_count`, and the outcome of each candidate in file order. -/
  | done (success_count skip_count : Nat) (outcomes : List FileOutcome)
  /-- An exception escaped `main` (only the uncaught `FileNotFoundError`
  from `ffprobe` inside the loop can do this). -/
  | uncaught (e : PyExn)
deriving DecidableEq, Repr

/-- Function `main` (lines 62-119): discovery, early return on no matches, preflight
`ffmpeg` check, the per-file loop, and the final summary block. -/
def main (env : Env) (fs : FS) : List Event × FS × RunResult :=
  let video_files := discovered fs
  if video_files = [] then
    ([.printNoFiles], fs, .noFiles)
  else
    let evs0 := [.printFoundCount video_files.length, .runFfmpegVersion]
    if env.ffmpegOnPath then
      match process_loop env fs video_files with
      | (evs, fs1, .error e) => (evs0 ++ evs, fs1, .uncaught e)
      | (evs, fs1, .ok (succ, skip, ocs)) =>
        (evs0 ++ evs ++
           [.printSummary succ skip ((video_files.length : Int) - succ - skip)],
         fs1, .done succ skip ocs)
    else
      (evs0 ++ [.logToolMissing], fs, .toolUnavailable)

/-- The outcome the loop body assigns to a candidate, as a function of the
oracle alone (assuming both binaries are on `PATH`): skip when the probe
reports the target codec `h264`; otherwise converted or failed according to
whether the transcode succeeds.  Note a failed probe (`none`) also falls into
the transcode branches. -/
def outcome_of (env : Env) (q : String) : FileOutcome :=
  if env.probeResult q = some "h264" then .skipped
  else if env.transcodeOk q then .converted else .failed

/-- Whether an event is the final summary block print (lines 114-119). -/
def Event.isSummary : Event → Bool
  | .printSummary _ _ _ => true
  | _ => false

/-- The outcome of every discovered candidate of a run, in file order
(derived from the oracle; meaningful when both binaries are on `PATH`). -/
def run_outcomes (env : Env) (fs : FS) : List FileOutcome :=
  (discovered fs).map (outcome_of env)

/-- A concrete environment for witnesses: both binaries available, every file
probes as `mpeg4`, every transcode succeeds. -/
def envBase : Env :=
  { ffmpegOnPath := true
    ffprobeOnPath := true
    probeResult := fun _ => some "mpeg4"
    transcodeOk := fun _ => true
    transcodedContent := fun _ => 101
    failTemp := fun _ => none }

/-- A concrete environment where every probe reports the target codec
`h264` (the state of the world after a successful first run). -/
def envSkipAll : Env := { envBase with probeResult := fun _ => some "h264" }

/-- A concrete environment where every `ffprobe` invocation exits non-zero
(raising `CalledProcessError`) while transcoding succeeds. -/
def envProbeFail : Env := { envBase with probeResult := fun _ => none }

/-- A concrete environment where `ffmpeg` is absent from `PATH`. -/
def envNoFfmpeg : Env := { envBase with ffmpegOnPath := false }

/-- A concrete environment where `ffprobe` is absent from `PATH` but
`ffmpeg` is available. -/
def envNoFfprobe : Env := { envBase with ffprobeOnPath := false }

/-- A concrete environment where exactly the file `b.mp4` fails to
transcode and every file probes as `mpeg4`. -/
def envOneFail : Env := { envBase with transcodeOk := fun p => p != "b.mp4" }

/-- A concrete environment where exactly the file `a.mp4` fails to probe,
every other file probes as `h264`, and every transcode succeeds. -/
def envProbeFailOne : Env :=
  { envBase with probeResult := fun p => if p = "a.mp4" then none else some "h264" }

/-- A concrete filesystem holding only the file named by `video_pattern`. -/
def fsSingle : FS := fun p => if p = video_pattern then some 1 else none

/-- The empty filesystem. -/
def fsEmpty : FS := fun _ => none

/-- A concrete filesystem holding the files `a.mp4`, `b.mp4` and `c.mp4`. -/
def fsABC : FS := fun p => if p = "a.mp4" ∨ p = "b.mp4" ∨ p = "c.mp4" then some 1 else none

/-! Helper lemmas characterising the per-file body and the loop. -/

/-- With `ffprobe` on `PATH`, `get_video_info` returns the probe oracle's
answer (logging an error when the probe failed) and raises nothing. -/
theorem get_video_info_ok (env : Env) (q : String)
    (hfp : env.ffprobeOnPath = true) :
    get_video_info env q =
      ((match env.probeResult q with
        | some _ => [Event.runFfprobe q]
        | none => [Event.runFfprobe q, Event.logProbeError q]),
       .ok (env.probeResult q)) := by
  cases h : env.probeResult q <;> simp [get_video_info, hfp, h]

/-- A file probing as the target codec takes the skip branch: no transcode,
no filesystem change, outcome `skipped`. -/
theorem process_file_h264 (env : Env) (fs : FS) (q : String)
    (hfp : env.ffprobeOnPath = true) (hq : env.probeResult q = some "h264") :
    process_file env fs q =
      ([.runFfprobe q, .printSkipping q], fs, .ok .skipped) := by
  simp [process_file, get_video_info_ok env q hfp, hq]

/-- With both binaries on `PATH`, the per-file body never raises, and the
outcome is exactly `outcome_of`. -/
theorem process_file_outcome (env : Env) (fs : FS) (q : String)
    (hfp : env.ffprobeOnPath = true) (hff : env.ffmpegOnPath = true) :
    (process_file env fs q).2.2 = .ok (outcome_of env q) := by
  by_cases hq : env.probeResult q = some "h264"
  · simp [process_file_h264 env fs q hfp hq, outcome_of, hq]
  · by_cases hok : env.transcodeOk q
    · simp [process_file, get_video_info_ok env q hfp, convert_video, hq, hff, hok, outcome_of]
    · simp only [Bool.not_eq_true] at hok
      simp only [process_file, get_video_info_ok env q hfp, convert_video, hq, hff, hok,
        outcome_of, if_false, if_true, Bool.false_eq_true]
      split <;> simp

/-- A successful conversion: outcome `converted`, the transcoder is invoked
on the file writing to the temporary sibling, the original path ends up
holding the transcoded content, the temporary path is gone, and every other
path is untouched. -/
theorem process_file_convert_success (env : Env) (fs : FS) (q : String)
    (hfp : env.ffprobeOnPath = true) (hff : env.ffmpegOnPath = true)
    (hq : env.probeResult q ≠ some "h264") (hok : env.transcodeOk q = true) :
    (process_file env fs q).2.2 = .ok .converted ∧
    Event.runFfmpeg q (temp_output q) ∈ (process_file env fs q).1 ∧
    ∀ x, (process_file env fs q).2.1 x =
      if x = q then some (env.transcodedContent q)
      else if x = temp_output q then none else fs x := by
  refine ⟨?_, ?_, ?_⟩
  · cases hpr : env.probeResult q <;>
      simp_all [process_file, get_video_info_ok env q hfp, convert_video, hff, hok]
  · cases hpr : env.probeResult q <;>
      simp_all [process_file, get_video_info_ok env q hfp, convert_video, hff, hok]
  · intro x
    by_cases hxq : x = q <;> by_cases hxt : x = temp_output q <;>
      cases hpr : env.probeResult q <;>
        simp_all [process_file, get_video_info_ok env q hfp, convert_video, hff, hok]

/-- A failed conversion: outcome `failed`, the diagnostic is logged, the
temporary path ends up absent (deleted if present) and every other path is
untouched. -/
theorem process_file_convert_fail (env : Env) (fs : FS) (q : String)
    (hfp : env.ffprobeOnPath = true) (hff : env.ffmpegOnPath = true)
    (hq : env.probeResult q ≠ some "h264") (hfail : env.transcodeOk q = false) :
    (process_file env fs q).2.2 = .ok .failed ∧
    Event.logConvertError q ∈ (process_file env fs q).1 ∧
    ∀ x, (process_file env fs q).2.1 x =
      if x = temp_output q then none else fs x := by
  refine ⟨?_, ?_, ?_⟩
  · cases hpr : env.probeResult q <;>
      simp_all [process_file, get_video_info_ok env q hfp, convert_video, hff, hfail] <;>
      split <;> simp
  · cases hpr : env.probeResult q <;>
      simp_all [process_file, get_video_info_ok env q hfp, convert_video, hff, hfail] <;>
      split <;> simp
  · intro x
    by_cases hxt : x = temp_output q <;>
      cases hpr : env.probeResult q <;>
        simp_all [process_file, get_video_info_ok env q hfp, convert_video, hff, hfail] <;>
        split <;> simp_all

/-- With both binaries on `PATH`, the loop raises nothing, assigns each file
the outcome `outcome_of`, and the two counters are the number of converted
and skipped outcomes. -/
theorem process_loop_spec (env : Env) (files : List String)
    (hfp : env.ffprobeOnPath = true) (hff : env.ffmpegOnPath = true) :
    ∀ fs : FS, (process_loop env fs files).2.2 =
      .ok ((files.map (outcome_of env)).count .converted,
           (files.map (outcome_of env)).count .skipped,
           files.map (outcome_of env)) := by
  induction files with
  | nil => intro fs; simp [process_loop]
  | cons q rest ih =>
    intro fs
    rcases hpf : process_file env fs q with ⟨evs, fs1, r⟩
    have hoc := process_file_outcome env fs q hfp hff
    rw [hpf] at hoc; simp only at hoc; subst hoc
    rcases hpl : process_loop env fs1 rest with ⟨evs2, fs2, r2⟩
    have h2 := ih fs1
    rw [hpl] at h2; simp only at h2; subst h2
    simp only [process_loop, hpf, hpl, List.map_cons, List.count_cons]
    refine congrArg Except.ok ?_
    cases h : outcome_of env q <;> simp [h] <;> omega

/-- If every file in the list probes as the target codec, the loop emits only
probe and skip events, leaves the filesystem untouched, converts nothing and
skips everything. -/
theorem process_loop_all_h264 (env : Env) (files : List String)
    (hfp : env.ffprobeOnPath = true)
    (hall : ∀ p ∈ files, env.probeResult p = some "h264") :
    ∀ fs : FS, process_loop env fs files =
      ((files.map fun p => [Event.runFfprobe p, Event.printSkipping p]).flatten, fs,
       .ok (0, files.length, files.map fun _ => FileOutcome.skipped)) := by
  induction files with
  | nil => intro fs; simp [process_loop]
  | cons p rest ih =>
    intro fs
    have h1 := process_file_h264 env fs p hfp (hall p (by simp))
    have h2 := ih (fun q hq => hall q (by simp [hq])) fs
    simp [process_loop, h1, h2, Nat.add_comm]

/-- The per-file body can change the filesystem only at the file's own path
and its temporary sibling, and does not change either when the file probes
as the target codec. -/
theorem process_file_preserves (env : Env) (fs : FS) (q x : String)
    (hxt : x ≠ temp_output q)
    (hxq : x = q → env.probeResult q = some "h264") :
    (process_file env fs q).2.1 x = fs x := by
  by_cases hfp : env.ffprobeOnPath
  · by_cases hq : env.probeResult q = some "h264"
    · simp [process_file_h264 env fs q hfp hq]
    · have hxq' : x ≠ q := fun he => hq (hxq he)
      by_cases hff : env.ffmpegOnPath
      · by_cases hok : env.transcodeOk q
        · rw [(process_file_convert_success env fs q hfp hff hq hok).2.2 x]
          simp [hxq', hxt]
        · rw [(process_file_convert_fail env fs q hfp hff hq (by simpa using hok)).2.2 x]
          simp [hxt]
      · cases hpr : env.probeResult q <;>
          (simp [process_file, get_video_info_ok env q hfp, convert_video, hff, hpr]
           try (split <;> rfl))
  · simp [process_file, get_video_info, hfp]

/-- The loop preserves the content of any path that is no file's temporary
sibling and that coincides with a processed file only if that file probes as
the target codec. -/
theorem process_loop_preserves (env : Env) (x : String) (files : List String)
    (h : ∀ q ∈ files, x ≠ temp_output q ∧ (x = q → env.probeResult q = some "h264")) :
    ∀ fs : FS, (process_loop env fs files).2.1 x = fs x := by
  induction files with
  | nil => intro fs; simp [process_loop]
  | cons q rest ih =>
    intro fs
    have hq := h q (by simp)
    have hfile := process_file_preserves env fs q x hq.1 hq.2
    have hrest := ih fun r hr => h r (by simp [hr])
    rcases hpf : process_file env fs q with ⟨evs, fs1, r⟩
    rw [hpf] at hfile; simp only at hfile
    cases r with
    | error e => simpa [process_loop, hpf] using hfile
    | ok oc =>
      rcases hpl : process_loop env fs1 rest with ⟨evs2, fs2, r2⟩
      have h2 := hrest fs1
      rw [hpl] at h2; simp only at h2
      cases r2 <;> simp [process_loop, hpf, hpl, h2, hfile]

/-- Every transcoder invocation recorded by the per-file body is on the
file being processed, and only when its probe did not report the target
codec. -/
theorem process_file_ffmpeg_event (env : Env) (fs : FS) (q i o : String)
    (h : Event.runFfmpeg i o ∈ (process_file env fs q).1) :
    i = q ∧ env.probeResult q ≠ some "h264" := by
  by_cases hfp : env.ffprobeOnPath
  · by_cases hq : env.probeResult q = some "h264"
    · rw [process_file_h264 env fs q hfp hq] at h; simp at h
    · refine ⟨?_, hq⟩
      by_cases hff : env.ffmpegOnPath <;>
        by_cases hok : env.transcodeOk q <;>
          cases hpr : env.probeResult q <;>
            simp_all [process_file, get_video_info_ok env q hfp, convert_video] <;>
            first
              | rfl
              | (split at h <;> simp_all)
  · simp [process_file, get_video_info, hfp] at h

/-- Every transcoder invocation recorded by the loop is on a file of the
list whose probe did not report the target codec. -/
theorem process_loop_ffmpeg_event (env : Env) (i o : String) (files : List String) :
    ∀ fs : FS, Event.runFfmpeg i o ∈ (process_loop env fs files).1 →
      i ∈ files ∧ env.probeResult i ≠ some "h264" := by
  induction files with
  | nil => intro fs h; simp [process_loop] at h
  | cons q rest ih =>
    intro fs h
    rcases hpf : process_file env fs q with ⟨evs, fs1, r⟩
    have hhead : Event.runFfmpeg i o ∈ evs → i ∈ q :: rest ∧ env.probeResult i ≠ some "h264" := by
      intro hm
      have := process_file_ffmpeg_event env fs q i o (by rw [hpf]; exact hm)
      exact ⟨by simp [this.1], this.1 ▸ this.2⟩
    cases r with
    | error e =>
      simp only [process_loop, hpf] at h
      exact hhead h
    | ok oc =>
      rcases hpl : process_loop env fs1 rest with ⟨evs2, fs2, r2⟩
      have htail : Event.runFfmpeg i o ∈ evs2 → i ∈ q :: rest ∧ env.probeResult i ≠ some "h264" := by
        intro hm
        have := ih fs1 (by rw [hpl]; exact hm)
        exact ⟨by simp [this.1], this.2⟩
      cases r2 <;>
        (simp only [process_loop, hpf, hpl, List.mem_append] at h
         rcases h with h | h
         · exact hhead h
         · exact htail h)

/-- The three outcome counts of any outcome list add up to its length. -/
theorem outcome_count_sum (ocs : List FileOutcome) :
    ocs.count .converted + ocs.count .skipped + ocs.count .failed = ocs.length := by
  induction ocs with
  | nil => simp
  | cons oc rest ih => cases oc <;> simp [List.count_cons] <;> omega

/-- If `p` is the only file of the list whose transcode fails (and `p` does
not probe as the target codec), the failed outcomes are exactly the
occurrences of `p`. -/
theorem map_outcome_count_failed (env : Env) (p : String)
    (hp : env.probeResult p ≠ some "h264") (hfail : env.transcodeOk p = false)
    (files : List String) :
    (∀ q ∈ files, q ≠ p → env.transcodeOk q = true) →
      (files.map (outcome_of env)).count .failed = files.count p := by
  induction files with
  | nil => intro _; simp
  | cons q rest ih =>
    intro h
    have hrest := ih fun r hr hne => h r (by simp [hr]) hne
    by_cases hq : q = p
    · subst hq
      simp [List.count_cons, hrest, outcome_of, hp, hfail]
    · have hok := h q (by simp) hq
      have hnf : outcome_of env q ≠ .failed := by
        simp only [outcome_of, hok]
        split <;> simp
      simp [List.count_cons, hrest, hq, hnf]

/-- The last element of a cons around an appended singleton. -/
theorem getLast_cons_append {α : Type} (a : α) (l : List α) (x : α) :
    (a :: (l ++ [x])).getLast? = some x := by
  rw [show a :: (l ++ [x]) = (a :: l) ++ [x] by simp, List.getLast?_concat]

/-! The claims. -/

/-- C1 is false on the code: in a run where the single candidate's probe
fails (`ffprobe` exits non-zero) but its transcode succeeds, the error is
logged, yet the transcoder IS invoked on the file and the file is recorded
as converted, not as a per-file failure. -/
theorem probe_failure_not_isolated_cex :
    Event.logProbeError video_pattern ∈ (main envProbeFail fsSingle).1 ∧
    Event.runFfmpeg video_pattern (temp_output video_pattern) ∈ (main envProbeFail fsSingle).1 ∧
    (main envProbeFail fsSingle).2.2 = .done 1 0 [FileOutcome.converted] := by
  decide

/-- C1 (amended): when probing a file fails (non-zero exit of the prober),
the run logs the error and continues without aborting the batch, but the
transcode operation IS still invoked on that file; the file is recorded as
failed only when that transcode also fails, and as converted when it
succeeds. -/
theorem probe_failure_still_transcodes (env : Env) (fs : FS) (p : String)
    (hfp : env.ffprobeOnPath = true) (hff : env.ffmpegOnPath = true)
    (hp : env.probeResult p = none) :
    Event.logProbeError p ∈ (process_file env fs p).1 ∧
    Event.runFfmpeg p (temp_output p) ∈ (process_file env fs p).1 ∧
    (process_file env fs p).2.2 =
      .ok (if env.transcodeOk p then FileOutcome.converted else FileOutcome.failed) := by
  by_cases hok : env.transcodeOk p <;>
    refine ⟨?_, ?_, ?_⟩ <;>
      simp [process_file, get_video_info_ok env p hfp, convert_video, hp, hff, hok] <;>
        split <;> simp

/-- Witness for C1 (amended) at a concrete environment. -/
theorem probe_failure_still_transcodes_witness :
    envProbeFail.probeResult video_pattern = none ∧
    Event.logProbeError video_pattern ∈ (process_file envProbeFail fsSingle video_pattern).1 :=
  ⟨by decide,
   (probe_failure_still_transcodes envProbeFail fsSingle video_pattern
      (by decide) (by decide) (by decide)).1⟩

/-- C2 is false on the code: on an empty match the run prints only the
"no files" message and returns; no RunSummary (not even one of all zeros) is
printed or produced. -/
theorem empty_glob_no_summary_cex :
    (main envBase fsEmpty).1 = [Event.printNoFiles] ∧
    ((main envBase fsEmpty).1.any Event.isSummary) = false ∧
    (main envBase fsEmpty).2.2 = RunResult.noFiles ∧
    (main envBase fsEmpty).2.2 ≠ RunResult.done 0 0 [] := by
  decide

/-- C2 (amended): when the glob pattern matches zero files the run
terminates immediately with the "no files found" report, performs no probe,
transcode or filesystem change, and ends cleanly (not an error); however no
RunSummary block is printed at all. -/
theorem empty_glob_clean_exit (env : Env) (fs : FS)
    (h : fs video_pattern = none) :
    main env fs = ([Event.printNoFiles], fs, RunResult.noFiles) := by
  simp [main, discovered, glob, h, py_sorted]

/-- Witness for C2 (amended) at a concrete environment. -/
theorem empty_glob_clean_exit_witness :
    fsEmpty video_pattern = none ∧ (main envBase fsEmpty).2.2 = RunResult.noFiles :=
  ⟨rfl, by rw [empty_glob_clean_exit envBase fsEmpty rfl]⟩

/-- C3: idempotence — if every file of the candidate set probes as the
target codec (as after a successful first run), the run converts zero
files, marks every candidate skipped, modifies no file, and never invokes
the transcoder. -/
theorem second_run_all_skips (env : Env) (files : List String) (fs : FS)
    (hfp : env.ffprobeOnPath = true)
    (hall : ∀ p ∈ files, env.probeResult p = some "h264") :
    (process_loop env fs files).2.2 =
      .ok (0, files.length, files.map fun _ => FileOutcome.skipped) ∧
    (process_loop env fs files).2.1 = fs ∧
    ∀ i o, Event.runFfmpeg i o ∉ (process_loop env fs files).1 := by
  have h := process_loop_all_h264 env files hfp hall fs
  refine ⟨by rw [h], by rw [h], ?_⟩
  intro i o hm
  have hev := process_loop_ffmpeg_event env i o files fs hm
  exact hev.2 (hall i hev.1)

/-- Witness for C3 at a concrete environment. -/
theorem second_run_all_skips_witness :
    envSkipAll.probeResult video_pattern = some "h264" ∧
    (process_loop envSkipAll fsSingle [video_pattern]).2.2 =
      .ok (0, 1, [FileOutcome.skipped]) :=
  ⟨by decide,
   (second_run_all_skips envSkipAll [video_pattern] fsSingle (by decide) (by decide)).1⟩

/-- C4 is false on the code as stated: in a two-file set where exactly one
file's probe fails (and every transcode would succeed), both files are
processed but the failed count is 0, not 1 — the probe-failed file is
transcoded anyway and recorded as converted. -/
theorem one_probe_failure_zero_failed_cex :
    envProbeFailOne.probeResult "a.mp4" = none ∧
    (process_loop envProbeFailOne fsABC ["a.mp4", "b.mp4"]).2.2 =
      .ok (1, 1, [FileOutcome.converted, FileOutcome.skipped]) ∧
    [FileOutcome.converted, FileOutcome.skipped].count .failed = 0 := by
  decide

/-- C4 (amended): for every candidate whose transcode fails, the temporary
file is deleted if it exists, the candidate is counted failed, the
diagnostic output is logged, and processing continues; in a set of N files
where exactly one file's transcode fails (every other file skipping or
transcoding successfully), all N files receive an outcome and the failed
count equals 1.  (A probe failure alone does not produce a failed outcome:
the file still proceeds to the transcoder.) -/
theorem transcode_failure_isolated (env : Env) (files : List String) (fs : FS) (p : String)
    (hfp : env.ffprobeOnPath = true) (hff : env.ffmpegOnPath = true)
    (hp : env.probeResult p ≠ some "h264") (hfail : env.transcodeOk p = false)
    (hone : files.count p = 1)
    (hothers : ∀ q ∈ files, q ≠ p → env.transcodeOk q = true) :
    ((process_file env fs p).2.2 = .ok FileOutcome.failed ∧
     Event.logConvertError p ∈ (process_file env fs p).1 ∧
     (process_file env fs p).2.1 (temp_output p) = none) ∧
    (process_loop env fs files).2.2 =
      .ok ((files.map (outcome_of env)).count .converted,
           (files.map (outcome_of env)).count .skipped,
           files.map (outcome_of env)) ∧
    (files.map (outcome_of env)).length = files.length ∧
    (files.map (outcome_of env)).count .failed = 1 := by
  have hpf := process_file_convert_fail env fs p hfp hff hp hfail
  refine ⟨⟨hpf.1, hpf.2.1, ?_⟩, process_loop_spec env files hfp hff fs, by simp, ?_⟩
  · rw [hpf.2.2 (temp_output p)]; simp
  · rw [map_outcome_count_failed env p hp hfail files hothers, hone]

/-- Witness for C4 (amended) at a concrete environment: three files, the
middle one fails to transcode. -/
theorem transcode_failure_isolated_witness :
    envOneFail.transcodeOk "b.mp4" = false ∧
    (process_loop envOneFail fsABC ["a.mp4", "b.mp4", "c.mp4"]).2.2 =
      .ok (2, 0, [FileOutcome.converted, FileOutcome.failed, FileOutcome.converted]) :=
  ⟨by decide,
   by rw [(transcode_failure_isolated envOneFail ["a.mp4", "b.mp4", "c.mp4"] fsABC "b.mp4"
        (by decide) (by decide) (by decide) (by decide) (by decide) (by decide)).2.1]; decide⟩

/-- C5: if the preflight `ffmpeg -version` probe fails (and was reached,
i.e. the candidate set is non-empty), the whole run aborts with the
tool-unavailable report before any file is probed, transcoded or modified:
the trace holds only the found-count print, the preflight attempt and the
unavailability message, and the filesystem is returned unchanged. -/
theorem tool_unavailable_fails_fast (env : Env) (fs : FS)
    (hff : env.ffmpegOnPath = false) (hex : (fs video_pattern).isSome = true) :
    main env fs =
      ([Event.printFoundCount 1, Event.runFfmpegVersion, Event.logToolMissing],
       fs, RunResult.toolUnavailable) := by
  have hd : discovered fs = [video_pattern] := by
    simp [discovered, glob, hex, py_sorted, sorted_insert]
  simp [main, hd, hff]

/-- Witness for C5 at a concrete environment. -/
theorem tool_unavailable_fails_fast_witness :
    envNoFfmpeg.ffmpegOnPath = false ∧
    (main envNoFfmpeg fsSingle).2.2 = RunResult.toolUnavailable :=
  ⟨by decide, by rw [tool_unavailable_fails_fast envNoFfmpeg fsSingle (by decide) (by decide)]⟩

/-- C6: a candidate probing as the target codec `h264` is marked skipped,
the transcoder is never invoked on it, and its content is unchanged at the
end of the loop (the collision hypothesis `hcol` says it is not also some
file's temporary sibling, which discovery guarantees for `.mp4`
candidates). -/
theorem already_h264_skipped (env : Env) (files : List String) (fs : FS) (p : String)
    (hfp : env.ffprobeOnPath = true) (hff : env.ffmpegOnPath = true)
    (hp : env.probeResult p = some "h264")
    (hcol : ∀ q ∈ files, p ≠ temp_output q) :
    outcome_of env p = .skipped ∧
    (∀ o, Event.runFfmpeg p o ∉ (process_loop env fs files).1) ∧
    (process_loop env fs files).2.1 p = fs p ∧
    (process_loop env fs files).2.2 =
      .ok ((files.map (outcome_of env)).count .converted,
           (files.map (outcome_of env)).count .skipped,
           files.map (outcome_of env)) := by
  refine ⟨by simp [outcome_of, hp], ?_, ?_, process_loop_spec env files hfp hff fs⟩
  · intro o hm
    exact (process_loop_ffmpeg_event env p o files fs hm).2 hp
  · exact process_loop_preserves env p files
      (fun q hq => ⟨hcol q hq, fun he => he ▸ hp⟩) fs

/-- Witness for C6 at a concrete environment. -/
theorem already_h264_skipped_witness :
    envSkipAll.probeResult video_pattern = some "h264" ∧
    (process_loop envSkipAll fsSingle [video_pattern]).2.1 video_pattern =
      fsSingle video_pattern :=
  ⟨by decide,
   (already_h264_skipped envSkipAll [video_pattern] fsSingle video_pattern
      (by decide) (by decide) (by decide) (by decide)).2.2.1⟩

/-- C7: the temporary output path handed to the transcoder is a sibling of
the original (same directory, name derived by the `.mp4`-to-`_temp.mp4`
substitution) and never equals the original path; the transcoder writes
only to the temporary path (the original's entry is untouched during
conversion), and on success a single atomic `os.replace` step moves the
temporary onto the original name, which afterwards holds the transcoded
content while the temporary name is gone. -/
theorem temp_sibling_atomic_replace (env : Env) (fs : FS) (c : String)
    (hff : env.ffmpegOnPath = true) (hfp : env.ffprobeOnPath = true)
    (hex : (fs video_pattern).isSome = true)
    (hc : env.probeResult video_pattern = some c) (hcne : c ≠ "h264")
    (hok : env.transcodeOk video_pattern = true) :
    temp_output video_pattern ≠ video_pattern ∧
    temp_output video_pattern = video_dir ++ "/video_0446_temp.mp4" ∧
    (∀ fs' : FS,
      (convert_video env fs' video_pattern (temp_output video_pattern)).2.1 video_pattern =
        fs' video_pattern) ∧
    (main env fs).1 =
      [Event.printFoundCount 1, Event.runFfmpegVersion, Event.runFfprobe video_pattern,
       Event.printCurrentCodec (some c), Event.printConverting video_pattern,
       Event.runFfmpeg video_pattern (temp_output video_pattern),
       Event.printConvertSuccess video_pattern,
       Event.osReplace (temp_output video_pattern) video_pattern,
       Event.printSummary 1 0 0] ∧
    (main env fs).2.1 video_pattern = some (env.transcodedContent video_pattern) ∧
    (main env fs).2.1 (temp_output video_pattern) = none := by
  have hd : discovered fs = [video_pattern] := by
    simp [discovered, glob, hex, py_sorted, sorted_insert]
  have hne : ¬(video_pattern = temp_output video_pattern) := by decide
  have hne' : ¬(temp_output video_pattern = video_pattern) := by decide
  refine ⟨by decide, by decide, ?_, ?_, ?_, ?_⟩
  · intro fs'
    simp [convert_video, hff, hok, hne]
  all_goals
    simp [main, hd, process_loop, process_file, get_video_info_ok env video_pattern hfp, hc,
          hcne, convert_video, hff, hok, hne, hne']

/-- Witness for C7 at a concrete environment. -/
theorem temp_sibling_atomic_replace_witness :
    envBase.probeResult video_pattern = some "mpeg4" ∧
    temp_output video_pattern ≠ video_pattern ∧
    (main envBase fsSingle).2.1 video_pattern = some (envBase.transcodedContent video_pattern) :=
  ⟨by decide,
   (temp_sibling_atomic_replace envBase fsSingle "mpeg4" (by decide) (by decide) (by decide)
      (by decide) (by decide) (by decide)).1,
   (temp_sibling_atomic_replace envBase fsSingle "mpeg4" (by decide) (by decide) (by decide)
      (by decide) (by decide) (by decide)).2.2.2.2.1⟩

/-- C8: a completed run ends with the summary block reporting the converted
count, the skipped count, and a failed count computed as total minus
converted minus skipped; these equal the number of converted, skipped and
failed outcomes over the discovered candidates, and every discovered
candidate has an outcome. -/
theorem final_summary_counts (env : Env) (fs : FS)
    (hff : env.ffmpegOnPath = true) (hfp : env.ffprobeOnPath = true)
    (hex : (fs video_pattern).isSome = true) :
    (run_outcomes env fs).length = (discovered fs).length ∧
    (main env fs).2.2 = RunResult.done ((run_outcomes env fs).count .converted)
        ((run_outcomes env fs).count .skipped) (run_outcomes env fs) ∧
    (main env fs).1.getLast? = some (Event.printSummary
        ((run_outcomes env fs).count .converted) ((run_outcomes env fs).count .skipped)
        (((discovered fs).length : Int) - (run_outcomes env fs).count .converted -
          (run_outcomes env fs).count .skipped)) ∧
    (((discovered fs).length : Int) - (run_outcomes env fs).count .converted -
        (run_outcomes env fs).count .skipped) = ((run_outcomes env fs).count .failed : Int) := by
  have hd : discovered fs = [video_pattern] := by
    simp [discovered, glob, hex, py_sorted, sorted_insert]
  have hl := process_loop_spec env [video_pattern] hfp hff fs
  rcases hpl : process_loop env fs [video_pattern] with ⟨evs, fs1, r⟩
  rw [hpl] at hl; simp only at hl; subst hl
  refine ⟨by simp [run_outcomes], ?_, ?_, ?_⟩
  · simp [main, hd, hff, hpl, run_outcomes]
  · simp [main, hd, hff, hpl, run_outcomes, getLast_cons_append]
  · simp only [run_outcomes, hd, List.map_cons, List.map_nil, List.length_cons,
      List.length_nil]
    cases houtcome : outcome_of env video_pattern <;> simp [houtcome]

/-- Witness for C8 at a concrete environment. -/
theorem final_summary_counts_witness :
    (fsSingle video_pattern).isSome = true ∧
    (main envBase fsSingle).2.2 = RunResult.done 1 0 [FileOutcome.converted] :=
  ⟨by decide, by
    rw [(final_summary_counts envBase fsSingle (by decide) (by decide) (by decide)).2.1]
    decide⟩

/-- C9: when `ffprobe` is absent from `PATH` (but `ffmpeg` is present, so
the preflight — which only invokes `ffmpeg` — passes), the
`FileNotFoundError` raised while probing the first candidate is not caught
by the per-file handler (which catches only `CalledProcessError`): no
per-file error is logged, no summary is printed, and the whole run aborts
with the uncaught exception, the filesystem unchanged. -/
theorem missing_ffprobe_uncaught (env : Env) (fs : FS)
    (hff : env.ffmpegOnPath = true) (hfp : env.ffprobeOnPath = false)
    (hex : (fs video_pattern).isSome = true) :
    main env fs = ([Event.printFoundCount 1, Event.runFfmpegVersion], fs,
      RunResult.uncaught PyExn.fileNotFoundError) ∧
    ((main env fs).1.any Event.isSummary) = false ∧
    (∀ p, Event.logProbeError p ∉ (main env fs).1) := by
  have hd : discovered fs = [video_pattern] := by
    simp [discovered, glob, hex, py_sorted, sorted_insert]
  have hm : main env fs = ([Event.printFoundCount 1, Event.runFfmpegVersion], fs,
      RunResult.uncaught PyExn.fileNotFoundError) := by
    simp [main, hd, hff, process_loop, process_file, get_video_info, hfp]
  refine ⟨hm, by rw [hm]; rfl, ?_⟩
  intro p hmem
  rw [hm] at hmem
  simp at hmem

/-- Witness for C9 at a concrete environment. -/
theorem missing_ffprobe_uncaught_witness :
    envNoFfprobe.ffprobeOnPath = false ∧
    (main envNoFfprobe fsSingle).2.2 = RunResult.uncaught PyExn.fileNotFoundError :=
  ⟨by decide, by
    rw [(missing_ffprobe_uncaught envNoFfprobe fsSingle (by decide) (by decide) (by decide)).1]⟩

/-- C10: discovery runs before the preflight tool check — with an empty
match the run reports "no files found" and ends cleanly without ever
attempting `ffmpeg -version`, so a missing transcoder is never reported on
an empty candidate set. -/
theorem discovery_precedes_preflight (env : Env) (fs : FS)
    (_hff : env.ffmpegOnPath = false) (hnone : fs video_pattern = none) :
    main env fs = ([Event.printNoFiles], fs, RunResult.noFiles) ∧
    Event.runFfmpegVersion ∉ (main env fs).1 ∧
    (main env fs).2.2 ≠ RunResult.toolUnavailable := by
  have hm : main env fs = ([Event.printNoFiles], fs, RunResult.noFiles) := by
    simp [main, discovered, glob, hnone, py_sorted]
  refine ⟨hm, by rw [hm]; simp, by rw [hm]; simp⟩

/-- Witness for C10 at a concrete environment. -/
theorem discovery_precedes_preflight_witness :
    envNoFfmpeg.ffmpegOnPath = false ∧ fsEmpty video_pattern = none ∧
    (main envNoFfmpeg fsEmpty).2.2 = RunResult.noFiles :=
  ⟨by decide, rfl, by
    rw [(discovery_precedes_preflight envNoFfmpeg fsEmpty (by decide) rfl).1]⟩

end AdjustVideo
